import Mathlib

/-!
Verification of the decision-and-state engine of the only-fan-controller
repository (src/internal/controller/fan.go), against its natural-language
specification.

Modelling conventions for the shallow embedding:
* Go `int` is modelled as `Int`.
* Go `time.Time` and `time.Duration` are modelled as `Int` nanoseconds,
  with the Go zero time modelled as `0` (the code itself uses the zero
  time as the "unset" sentinel, via `IsZero`).
* Go `float64` arithmetic in the trend estimator is modelled exactly by `ℚ`.
* The Go map `map[string]*WorkloadHint` is modelled as an association list
  with the map's insert/delete semantics; the map iteration in
  `calculateTarget` only computes a maximum, which is order-independent.
* IO effects (ipmitool invocation, logging, the history store) are out of
  the decision logic; `controlLoop` is embedded as a pure state-transition
  function that also reports what would be sent to the actuator and to the
  history store.  `setFanSpeed` unconditionally stores the applied speed in
  `currentSpeed` before invoking the actuator, which is kept.
-/

namespace FanCtrl

/-- One nanosecond-count of Go's `time.Second`. -/
def second : Int := 1000000000

/-- FanControlConfig from src/internal/config/config.go. -/
structure FanControlConfig where
  minSpeed : Int
  maxSpeed : Int
  idleSpeed : Int
  cpuThreshold : Int
  gpuThreshold : Int
  stepSize : Int
  cooldownDelay : Int
  rampUpStep : Int
  rampDownStep : Int
  constantIdle : Bool
  deriving DecidableEq

/-- MonitoringConfig from src/internal/config/config.go (seconds). -/
structure MonitoringConfig where
  interval : Int
  historyRetention : Int
  deriving DecidableEq

/-- Zone from src/internal/config/config.go. -/
structure Zone where
  name : String
  cpuMax : Int
  gpuMax : Int
  fanSpeed : Int
  deriving DecidableEq

/-- The parts of Config from src/internal/config/config.go read by the
controller core (IDRAC/API/storage/logging fields only feed IO paths). -/
structure Config where
  monitoring : MonitoringConfig
  zones : List Zone
  fanControl : FanControlConfig
  deriving DecidableEq

/-- CPUReading from src/internal/monitor/mock.go. -/
structure CPUReading where
  temps : List Int
  max : Int
  deriving DecidableEq

/-- GPUDevice from src/internal/monitor/gpu.go. -/
structure GPUDevice where
  index : Int
  name : String
  temp : Int
  utilization : Int
  memoryUsed : Int
  memoryTotal : Int
  powerDraw : Int
  deriving DecidableEq

/-- GPUReading from src/internal/monitor/gpu.go. -/
structure GPUReading where
  devices : List GPUDevice
  max : Int
  deriving DecidableEq

/-- WorkloadHint from src/internal/controller/fan.go. -/
structure WorkloadHint where
  type : String
  action : String
  intensity : String
  source : String
  minFanSpeed : Int
  expiresAt : Int
  createdAt : Int
  deriving DecidableEq

/-- Override from src/internal/controller/fan.go. -/
structure Override where
  speed : Int
  reason : String
  expiresAt : Int
  createdAt : Int
  deriving DecidableEq

/-- A tempPoint history entry from src/internal/controller/fan.go. -/
structure tempPoint where
  temp : Int
  timestamp : Int
  deriving DecidableEq

/-- The mutable state of FanController from src/internal/controller/fan.go
(the mutex, the monitors, the store handle and the run/stop plumbing carry
no decision state and are omitted). -/
structure FanState where
  currentSpeed : Int
  targetSpeed : Int
  currentZone : String
  lastCPUReading : Option CPUReading
  lastGPUReading : Option GPUReading
  hints : List (String × WorkloadHint)
  override : Option Override
  cpuHistory : List tempPoint
  gpuHistory : List tempPoint
  lastOverThreshold : Int
  deriving DecidableEq

/-- Status from src/internal/controller/fan.go. -/
structure Status where
  timestamp : Int
  cpu : Option CPUReading
  gpu : Option GPUReading
  currentSpeed : Int
  targetSpeed : Int
  zone : String
  mode : String
  activeHints : List WorkloadHint
  override : Option Override
  cpuTrend : ℚ
  gpuTrend : ℚ
  zones : List Zone
  cpuThreshold : Int
  gpuThreshold : Int
  idleSpeed : Int
  deriving DecidableEq

/-- Effective idle speed: fan.go lines 190-193 (config value, default 20). -/
def effIdleSpeed (fcc : FanControlConfig) : Int :=
  if fcc.idleSpeed = 0 then 20 else fcc.idleSpeed

/-- Effective CPU threshold: fan.go lines 204-208 (config value, default 65). -/
def effCPUThreshold (fcc : FanControlConfig) : Int :=
  if fcc.cpuThreshold = 0 then 65 else fcc.cpuThreshold

/-- Effective GPU threshold: fan.go lines 209-211 (config value, default 60). -/
def effGPUThreshold (fcc : FanControlConfig) : Int :=
  if fcc.gpuThreshold = 0 then 60 else fcc.gpuThreshold

/-- Effective step size: fan.go lines 226-229 (config value, default 10). -/
def effStepSize (fcc : FanControlConfig) : Int :=
  if fcc.stepSize = 0 then 10 else fcc.stepSize

/-- Effective cooldown duration in nanoseconds: fan.go lines 253-256
(the configured seconds converted to a Duration; 60s when that is zero). -/
def effCooldown (fcc : FanControlConfig) : Int :=
  if fcc.cooldownDelay * second = 0 then 60 * second else fcc.cooldownDelay * second

/-- The hint floor: fan.go lines 196-201, the maximum MinFanSpeed over the
registered hints, starting from 0. -/
def hintMinSpeed (hints : List (String × WorkloadHint)) : Int :=
  hints.foldl (fun acc p => if p.2.minFanSpeed > acc then p.2.minFanSpeed else acc) 0

/-- Zone classification: fan.go lines 216-224. -/
def zoneFor (cpuMax gpuMax : Int) (overThreshold : Bool) : String :=
  if cpuMax > 80 ∨ gpuMax > 85 then "hot"
  else if cpuMax > 70 ∨ gpuMax > 75 then "warm"
  else if overThreshold then "active"
  else "idle"

/-- Amount over threshold: fan.go lines 239-241.  Always nonnegative, so
Go's truncating division and Lean's Int division agree on `maxOver / 5`. -/
def maxOver (fcc : FanControlConfig) (cpuMax gpuMax : Int) : Int :=
  max (max 0 (cpuMax - effCPUThreshold fcc)) (max 0 (gpuMax - effGPUThreshold fcc))

/-- Speed needed for the current overage: fan.go lines 244-245
(each 5°C over threshold is one step increase). -/
def neededSpeed (fcc : FanControlConfig) (cpuMax gpuMax : Int) : Int :=
  effIdleSpeed fcc + (maxOver fcc cpuMax gpuMax / 5 + 1) * effStepSize fcc

/-- The over-threshold branch of calculateTarget: fan.go lines 234-250
(target starts at the current speed; ramp up by at most one step). -/
def rampTarget (fcc : FanControlConfig) (currentSpeed cpuMax gpuMax : Int) : Int :=
  if neededSpeed fcc cpuMax gpuMax > currentSpeed then
    min (currentSpeed + effStepSize fcc) (neededSpeed fcc cpuMax gpuMax)
  else currentSpeed

/-- The below-threshold branch of calculateTarget: fan.go lines 251-273
(snap to idle if never over threshold, hold during cooldown, otherwise
step down toward idle, never below it). -/
def cooldownTarget (fcc : FanControlConfig) (currentSpeed lastOverThreshold now : Int) : Int :=
  if lastOverThreshold = 0 then effIdleSpeed fcc
  else if now - lastOverThreshold > effCooldown fcc then
    if currentSpeed > effIdleSpeed fcc then
      if currentSpeed - effStepSize fcc < effIdleSpeed fcc then effIdleSpeed fcc
      else currentSpeed - effStepSize fcc
    else effIdleSpeed fcc
  else currentSpeed

/-- calculateTarget: fan.go lines 173-285.  Returns the target speed and the
updated state (currentZone, lastOverThreshold, targetSpeed); an active
override is returned verbatim with no state change. -/
def calculateTarget (cfg : Config) (st : FanState) (cpuReading : CPUReading)
    (gpuReading : GPUReading) (now : Int) : Int × FanState :=
  match st.override with
  | some o => (o.speed, st)
  | none =>
    let fcc := cfg.fanControl
    let cpuMax := cpuReading.max
    let gpuMax := gpuReading.max
    let overThreshold : Bool :=
      decide (cpuMax > effCPUThreshold fcc) || decide (gpuMax > effGPUThreshold fcc)
    let zone := zoneFor cpuMax gpuMax overThreshold
    let raw :=
      if overThreshold then rampTarget fcc st.currentSpeed cpuMax gpuMax
      else cooldownTarget fcc st.currentSpeed st.lastOverThreshold now
    let floored := if hintMinSpeed st.hints > raw then hintMinSpeed st.hints else raw
    let target := max fcc.minSpeed (min fcc.maxSpeed floored)
    (target,
     { st with
        currentZone := zone
        lastOverThreshold := if overThreshold then now else st.lastOverThreshold
        targetSpeed := target })

/-- The samples of the last 60 seconds: fan.go lines 292-299
(timestamp strictly after the cutoff). -/
def recentSamples (history : List tempPoint) (now : Int) : List tempPoint :=
  history.filter (fun p => decide (p.timestamp > now - 60 * second))

/-- calculateTrend: fan.go lines 287-315.  Endpoint-to-endpoint slope in
°C per minute over the samples of the last 60 seconds; float64 arithmetic
is modelled exactly by ℚ. -/
def calculateTrend (history : List tempPoint) (now : Int) : ℚ :=
  if history.length < 2 then 0
  else
    let recent := recentSamples history now
    if recent.length < 2 then 0
    else
      let first := recent.headD { temp := 0, timestamp := 0 }
      let last := recent.getLastD { temp := 0, timestamp := 0 }
      let duration : ℚ :=
        ((last.timestamp - first.timestamp : Int) : ℚ) / (60 * 1000000000)
      if duration < 1/10 then 0
      else ((last.temp - first.temp : Int) : ℚ) / duration

/-- trimHistory: fan.go lines 317-335. -/
def trimHistory (cfg : Config) (st : FanState) (now : Int) : FanState :=
  let cutoff := now - cfg.monitoring.historyRetention * second
  { st with
      cpuHistory := st.cpuHistory.filter (fun p => decide (p.timestamp > cutoff))
      gpuHistory := st.gpuHistory.filter (fun p => decide (p.timestamp > cutoff)) }

/-- cleanExpired: fan.go lines 337-349.  Removes hints and the override
whose expiry is set (not the zero time) and lies strictly before now. -/
def cleanExpired (st : FanState) (now : Int) : FanState :=
  { st with
      hints := st.hints.filter
        (fun p => !(p.2.expiresAt != 0 && decide (p.2.expiresAt < now)))
      override :=
        match st.override with
        | some o => if o.expiresAt ≠ 0 ∧ o.expiresAt < now then none else some o
        | none => none }

/-- The minimum fan speed derived from a hint's intensity: fan.go lines 420-429. -/
def intensityMinFanSpeed (intensity : String) : Int :=
  if intensity = "high" then 45
  else if intensity = "medium" then 25
  else if intensity = "low" then 15
  else 25

/-- Map insert/replace semantics of `fc.hints[hint.Source] = hint`. -/
def hintsInsert (hints : List (String × WorkloadHint)) (key : String)
    (h : WorkloadHint) : List (String × WorkloadHint) :=
  (key, h) :: hints.filter (fun p => p.1 != key)

/-- Map lookup on the hint registry. -/
def hintsLookup (hints : List (String × WorkloadHint)) (key : String) :
    Option WorkloadHint :=
  (hints.find? (fun p => p.1 == key)).map (fun p => p.2)

/-- AddHint: fan.go lines 414-435.  Overwrites the hint's MinFanSpeed from
its intensity, stamps CreatedAt, and stores it under its Source key. -/
def AddHint (st : FanState) (hint : WorkloadHint) (now : Int) : FanState :=
  let h := { hint with
              minFanSpeed := intensityMinFanSpeed hint.intensity
              createdAt := now }
  { st with hints := hintsInsert st.hints hint.source h }

/-- RemoveHint: fan.go lines 437-443 (map delete by source). -/
def RemoveHint (st : FanState) (source : String) : FanState :=
  { st with hints := st.hints.filter (fun p => p.1 != source) }

/-- SetOverride: fan.go lines 445-461.  ExpiresAt stays the zero time
unless the duration is positive. -/
def SetOverride (st : FanState) (speed duration : Int) (reason : String)
    (now : Int) : FanState :=
  { st with
      override := some
        { speed := speed
          reason := reason
          expiresAt := if duration > 0 then now + duration else 0
          createdAt := now } }

/-- ClearOverride: fan.go lines 463-469. -/
def ClearOverride (st : FanState) : FanState :=
  { st with override := none }

/-- GetStatus: fan.go lines 471-515.  Thresholds are default-substituted
for display; IdleSpeed is copied raw from the configuration (line 513). -/
def GetStatus (cfg : Config) (st : FanState) (now : Int) : Status :=
  { timestamp := now
    cpu := st.lastCPUReading
    gpu := st.lastGPUReading
    currentSpeed := st.currentSpeed
    targetSpeed := st.targetSpeed
    zone := st.currentZone
    mode :=
      if st.override.isSome then "override"
      else if st.hints.length > 0 then "hinted"
      else "auto"
    activeHints := st.hints.map (fun p => p.2)
    override := st.override
    cpuTrend := calculateTrend st.cpuHistory now
    gpuTrend := calculateTrend st.gpuHistory now
    zones := cfg.zones
    cpuThreshold := if cfg.fanControl.cpuThreshold = 0 then 65 else cfg.fanControl.cpuThreshold
    gpuThreshold := if cfg.fanControl.gpuThreshold = 0 then 60 else cfg.fanControl.gpuThreshold
    idleSpeed := cfg.fanControl.idleSpeed }

/-- The fallback CPU reading substituted on a read error: fan.go line 133. -/
def fallbackCPU : CPUReading := { temps := [], max := 0 }

/-- The fallback GPU reading substituted on a read error: fan.go line 139. -/
def fallbackGPU : GPUReading := { devices := [], max := 0 }

/-- What one control cycle does to the state, plus the data it hands to the
actuator and to the history store. -/
structure CycleResult where
  state : FanState
  usedCPU : CPUReading
  usedGPU : GPUReading
  target : Int
  recordedCPUMax : Int
  recordedGPUMax : Int
  recordedSpeed : Int
  deriving DecidableEq

/-- controlLoop: fan.go lines 128-171.  The sensor read results come in as
Except values; a read error is replaced by the fallback reading and the
cycle continues.  setFanSpeed's store of the applied speed into
currentSpeed (line 353) is part of the cycle. -/
def controlLoop (cfg : Config) (st : FanState) (cpuResult : Except String CPUReading)
    (gpuResult : Except String GPUReading) (now : Int) : CycleResult :=
  let cpuReading := match cpuResult with | .ok r => r | .error _ => fallbackCPU
  let gpuReading := match gpuResult with | .ok r => r | .error _ => fallbackGPU
  let st1 :=
    { st with
        lastCPUReading := some cpuReading
        lastGPUReading := some gpuReading
        cpuHistory := st.cpuHistory ++ [{ temp := cpuReading.max, timestamp := now }]
        gpuHistory := st.gpuHistory ++ [{ temp := gpuReading.max, timestamp := now }] }
  let st2 := trimHistory cfg st1 now
  let st3 := cleanExpired st2 now
  let res := calculateTarget cfg st3 cpuReading gpuReading now
  let st4 := { res.2 with currentSpeed := res.1 }
  { state := st4
    usedCPU := cpuReading
    usedGPU := gpuReading
    target := res.1
    recordedCPUMax := cpuReading.max
    recordedGPUMax := gpuReading.max
    recordedSpeed := res.1 }

/-- A configuration mirroring config.Default() from src/internal/config/config.go. -/
def sampleFCC : FanControlConfig :=
  { minSpeed := 5, maxSpeed := 100, idleSpeed := 20, cpuThreshold := 65,
    gpuThreshold := 60, stepSize := 10, cooldownDelay := 60,
    rampUpStep := 10, rampDownStep := 5, constantIdle := true }

/-- A full sample configuration built around sampleFCC. -/
def sampleCfg : Config :=
  { monitoring := { interval := 10, historyRetention := 3600 },
    zones := [], fanControl := sampleFCC }

/-- A freshly started controller sitting at idle. -/
def idleState : FanState :=
  { currentSpeed := 20, targetSpeed := 20, currentZone := "idle",
    lastCPUReading := none, lastGPUReading := none, hints := [],
    override := none, cpuHistory := [], gpuHistory := [],
    lastOverThreshold := 0 }

/-- Configuration with a clamp range of [10, 80]. -/
def clampCfg : Config :=
  { sampleCfg with fanControl := { sampleFCC with minSpeed := 10, maxSpeed := 80 } }

/-- State carrying a manual override of 100%, above clampCfg's maximum. -/
def bigOverrideState : FanState :=
  { idleState with
      override := some { speed := 100, reason := "stress", expiresAt := 0, createdAt := 1 } }

/-- A hint already registered under source x before the AddHint/RemoveHint pair. -/
def preHint : WorkloadHint :=
  { type := "workload", action := "start", intensity := "high", source := "x",
    minFanSpeed := 45, expiresAt := 0, createdAt := 0 }

/-- A fresh hint arriving from the same source x. -/
def newHint : WorkloadHint :=
  { type := "workload", action := "start", intensity := "low", source := "x",
    minFanSpeed := 0, expiresAt := 0, createdAt := 0 }

/-- A hint from a source not yet registered. -/
def freshHint : WorkloadHint :=
  { type := "workload", action := "start", intensity := "medium", source := "y",
    minFanSpeed := 0, expiresAt := 0, createdAt := 0 }

/-- Idle state that already holds preHint under source x. -/
def hintedState : FanState := { idleState with hints := [("x", preHint)] }

/-- Configuration whose idle speed is left at 0 (default substitution applies
inside the decision logic). -/
def zeroIdleCfg : Config :=
  { sampleCfg with fanControl := { sampleFCC with idleSpeed := 0 } }

/-- Configuration whose thresholds are left at 0. -/
def zeroThresholdCfg : Config :=
  { sampleCfg with fanControl := { sampleFCC with cpuThreshold := 0, gpuThreshold := 0 } }

/-! Helper lemmas shared by the claim theorems. -/

/-- cleanExpired keeps an override whose expiry is the zero time. -/
theorem cleanExpired_keeps_zero_expiry (st : FanState) (o : Override) (t : Int)
    (h : st.override = some o) (hz : o.expiresAt = 0) :
    (cleanExpired st t).override = some o := by
  simp [cleanExpired, h, hz]

/-- Any number of eviction passes keep an override whose expiry is the zero time. -/
theorem foldl_cleanExpired_keeps_zero_expiry (ts : List Int) (st : FanState) (o : Override)
    (h : st.override = some o) (hz : o.expiresAt = 0) :
    (ts.foldl cleanExpired st).override = some o := by
  induction ts generalizing st with
  | nil => simpa using h
  | cons t ts ih => exact ih _ (cleanExpired_keeps_zero_expiry st o t h hz)

/-- calculateTarget with an override present short-circuits to its speed. -/
theorem calculateTarget_of_override (cfg : Config) (st : FanState) (o : Override)
    (cpu : CPUReading) (gpu : GPUReading) (now : Int) (h : st.override = some o) :
    calculateTarget cfg st cpu gpu now = (o.speed, st) := by
  simp [calculateTarget, h]

/-- calculateTarget never touches the histories, the hint registry or the
override slot of the state. -/
theorem calculateTarget_state_frame (cfg : Config) (st : FanState)
    (cpu : CPUReading) (gpu : GPUReading) (now : Int) :
    (calculateTarget cfg st cpu gpu now).2.cpuHistory = st.cpuHistory ∧
    (calculateTarget cfg st cpu gpu now).2.gpuHistory = st.gpuHistory ∧
    (calculateTarget cfg st cpu gpu now).2.hints = st.hints ∧
    (calculateTarget cfg st cpu gpu now).2.override = st.override := by
  cases h : st.override <;> simp [calculateTarget, h]

/-! Claim theorems. -/

/-- Claim C5: while an override is present, calculateTarget returns the
override speed verbatim — neither the hint floor nor the min/max clamp is
applied — and the state (in particular currentZone, targetSpeed and
lastOverThreshold) is left entirely unchanged. -/
theorem override_returned_verbatim (cfg : Config) (st : FanState) (o : Override)
    (cpu : CPUReading) (gpu : GPUReading) (now : Int) (h : st.override = some o) :
    calculateTarget cfg st cpu gpu now = (o.speed, st) := by
  simp [calculateTarget, h]

/-- Witness for C5 at a state whose override speed 100 lies above the
configured clamp [10, 80] while using clampCfg. -/
theorem override_returned_verbatim_witness :
    calculateTarget clampCfg bigOverrideState fallbackCPU fallbackGPU 7
      = (100, bigOverrideState) :=
  override_returned_verbatim clampCfg bigOverrideState _ fallbackCPU fallbackGPU 7 rfl

/-- Counterexample to C1 as stated: with the clamp configured to [10, 80] and
an active override of 100%, calculateTarget returns 100, which violates the
claimed upper bound — the clamp does not apply while an override is active. -/
theorem clamp_fails_under_override :
    (calculateTarget clampCfg bigOverrideState fallbackCPU fallbackGPU (2 * second)).1 = 100 ∧
    ¬ (calculateTarget clampCfg bigOverrideState fallbackCPU fallbackGPU (2 * second)).1
        ≤ clampCfg.fanControl.maxSpeed := by
  decide

/-- Claim C1 (amended): whenever no override is active and the configured
bounds are ordered (minSpeed ≤ maxSpeed), the returned target lies in
[minSpeed, maxSpeed] and is stored in targetSpeed; an active override
bypasses the clamp and is returned verbatim. -/
theorem calculateTarget_clamped_without_override (cfg : Config) (st : FanState)
    (cpu : CPUReading) (gpu : GPUReading) (now : Int)
    (hov : st.override = none)
    (hms : cfg.fanControl.minSpeed ≤ cfg.fanControl.maxSpeed) :
    cfg.fanControl.minSpeed ≤ (calculateTarget cfg st cpu gpu now).1 ∧
    (calculateTarget cfg st cpu gpu now).1 ≤ cfg.fanControl.maxSpeed ∧
    (calculateTarget cfg st cpu gpu now).2.targetSpeed
      = (calculateTarget cfg st cpu gpu now).1 := by
  refine ⟨?_, ?_, ?_⟩
  · simp only [calculateTarget, hov]; omega
  · simp only [calculateTarget, hov]; omega
  · simp [calculateTarget, hov]

/-- Witness for the amended C1 at the sample configuration and idle state. -/
theorem calculateTarget_clamped_without_override_witness :
    sampleCfg.fanControl.minSpeed
        ≤ (calculateTarget sampleCfg idleState fallbackCPU fallbackGPU 9).1 ∧
    (calculateTarget sampleCfg idleState fallbackCPU fallbackGPU 9).1
        ≤ sampleCfg.fanControl.maxSpeed ∧
    (calculateTarget sampleCfg idleState fallbackCPU fallbackGPU 9).2.targetSpeed
      = (calculateTarget sampleCfg idleState fallbackCPU fallbackGPU 9).1 :=
  calculateTarget_clamped_without_override sampleCfg idleState fallbackCPU fallbackGPU 9
    rfl (by decide)

/-- Claim C2: in the over-threshold branch (no override), calculateTarget
stamps lastOverThreshold with now; the needed speed is
idleSpeed + (floor(max(0, cpuOver, gpuOver)/5) + 1)·stepSize; the pre-floor,
pre-clamp target equals min(currentSpeed + stepSize, max(currentSpeed, needed)),
so it never rises by more than one stepSize and never decreases; and in the
first over-threshold cycle with cpu.max = threshold+1, gpu.max = 0 and
currentSpeed = idleSpeed, it increases by exactly min(stepSize, needed - idleSpeed). -/
theorem calculateTarget_overThreshold_ramp (cfg : Config) (st : FanState)
    (cpu : CPUReading) (gpu : GPUReading) (now : Int)
    (hov : st.override = none)
    (hstep : 0 ≤ effStepSize cfg.fanControl)
    (hover : effCPUThreshold cfg.fanControl < cpu.max ∨
             effGPUThreshold cfg.fanControl < gpu.max) :
    (calculateTarget cfg st cpu gpu now).2.lastOverThreshold = now ∧
    neededSpeed cfg.fanControl cpu.max gpu.max
      = effIdleSpeed cfg.fanControl
        + (max 0 (max (cpu.max - effCPUThreshold cfg.fanControl)
                      (gpu.max - effGPUThreshold cfg.fanControl)) / 5 + 1)
          * effStepSize cfg.fanControl ∧
    rampTarget cfg.fanControl st.currentSpeed cpu.max gpu.max
      = min (st.currentSpeed + effStepSize cfg.fanControl)
            (max st.currentSpeed (neededSpeed cfg.fanControl cpu.max gpu.max)) ∧
    st.currentSpeed ≤ rampTarget cfg.fanControl st.currentSpeed cpu.max gpu.max ∧
    rampTarget cfg.fanControl st.currentSpeed cpu.max gpu.max
      ≤ st.currentSpeed + effStepSize cfg.fanControl ∧
    (cpu.max = effCPUThreshold cfg.fanControl + 1 → gpu.max = 0 →
      st.currentSpeed = effIdleSpeed cfg.fanControl →
      rampTarget cfg.fanControl st.currentSpeed cpu.max gpu.max
        = st.currentSpeed
          + min (effStepSize cfg.fanControl)
                (neededSpeed cfg.fanControl cpu.max gpu.max - st.currentSpeed)) := by
  have hb : (decide (cpu.max > effCPUThreshold cfg.fanControl)
      || decide (gpu.max > effGPUThreshold cfg.fanControl)) = true := by
    rcases hover with h | h <;> simp [h]
  have hmo : 0 ≤ maxOver cfg.fanControl cpu.max gpu.max := by
    unfold maxOver; omega
  have hdiv : 0 ≤ maxOver cfg.fanControl cpu.max gpu.max / 5 :=
    Int.ediv_nonneg hmo (by norm_num)
  have hk : 0 ≤ (maxOver cfg.fanControl cpu.max gpu.max / 5 + 1) * effStepSize cfg.fanControl :=
    mul_nonneg (by omega) hstep
  have hn : neededSpeed cfg.fanControl cpu.max gpu.max
      = effIdleSpeed cfg.fanControl
        + (maxOver cfg.fanControl cpu.max gpu.max / 5 + 1) * effStepSize cfg.fanControl := rfl
  refine ⟨?_, ?_, ?_, ?_, ?_, ?_⟩
  · simp [calculateTarget, hov, hb]
  · have : maxOver cfg.fanControl cpu.max gpu.max
        = max 0 (max (cpu.max - effCPUThreshold cfg.fanControl)
                     (gpu.max - effGPUThreshold cfg.fanControl)) := by
      unfold maxOver; omega
    rw [hn, this]
  · unfold rampTarget; split <;> omega
  · unfold rampTarget; split <;> omega
  · unfold rampTarget; split <;> omega
  · intro hc hg hcur
    unfold rampTarget; split <;> omega

/-- Witness for C2: at the sample configuration with cpu.max = 66 (threshold
65 + 1), gpu.max = 0 and currentSpeed = idleSpeed = 20, lastOverThreshold is
stamped and the pre-floor target rises by exactly min(stepSize, needed - 20). -/
theorem calculateTarget_overThreshold_ramp_witness :
    (calculateTarget sampleCfg idleState { temps := [66], max := 66 } fallbackGPU
        (5 * second)).2.lastOverThreshold = 5 * second ∧
    rampTarget sampleCfg.fanControl idleState.currentSpeed 66 0
      = idleState.currentSpeed
        + min (effStepSize sampleCfg.fanControl)
              (neededSpeed sampleCfg.fanControl 66 0 - idleState.currentSpeed) := by
  have h := calculateTarget_overThreshold_ramp sampleCfg idleState
    { temps := [66], max := 66 } fallbackGPU (5 * second) rfl (by decide)
    (Or.inl (by decide))
  exact ⟨h.1, h.2.2.2.2.2 (by decide) rfl (by decide)⟩

/-- Claim C3: in the below-threshold branch (no override), an unset
lastOverThreshold snaps the pre-floor target straight to the idle speed;
while now - lastOverThreshold ≤ cooldown (60s by default when configured 0)
the pre-floor target is held at currentSpeed; and once the cooldown has
elapsed the target drops by at most one stepSize per cycle, never below the
idle speed. -/
theorem cooldownTarget_spec (fcc : FanControlConfig) (cur lastOver now : Int)
    (hstep : 0 ≤ effStepSize fcc) :
    (fcc.cooldownDelay = 0 → effCooldown fcc = 60 * second) ∧
    (lastOver = 0 → cooldownTarget fcc cur lastOver now = effIdleSpeed fcc) ∧
    (lastOver ≠ 0 → now - lastOver ≤ effCooldown fcc →
        cooldownTarget fcc cur lastOver now = cur) ∧
    (lastOver ≠ 0 → effCooldown fcc < now - lastOver →
        cur - effStepSize fcc ≤ cooldownTarget fcc cur lastOver now ∧
        effIdleSpeed fcc ≤ cooldownTarget fcc cur lastOver now ∧
        cooldownTarget fcc cur lastOver now ≤ max cur (effIdleSpeed fcc)) := by
  refine ⟨?_, ?_, ?_, ?_⟩
  · intro h; simp [effCooldown, h]
  · intro h; simp [cooldownTarget, h]
  · intro h1 h2; unfold cooldownTarget; split_ifs <;> omega
  · intro h1 h2
    refine ⟨?_, ?_, ?_⟩ <;> (unfold cooldownTarget; split_ifs <;> omega)

/-- Witness for C3: concrete mid-cooldown hold at 50%, post-cooldown bounded
step-down, snap to idle when never breached, and the 60s default. -/
theorem cooldownTarget_spec_witness :
    cooldownTarget sampleFCC 50 (5 * second) (30 * second) = 50 ∧
    cooldownTarget sampleFCC 50 0 (70 * second) = effIdleSpeed sampleFCC ∧
    (50 - effStepSize sampleFCC ≤ cooldownTarget sampleFCC 50 (5 * second) (70 * second) ∧
     effIdleSpeed sampleFCC ≤ cooldownTarget sampleFCC 50 (5 * second) (70 * second) ∧
     cooldownTarget sampleFCC 50 (5 * second) (70 * second) ≤ max 50 (effIdleSpeed sampleFCC)) ∧
    effCooldown { sampleFCC with cooldownDelay := 0 } = 60 * second := by
  have h1 := cooldownTarget_spec sampleFCC 50 (5 * second) (30 * second) (by decide)
  have h2 := cooldownTarget_spec sampleFCC 50 0 (70 * second) (by decide)
  have h3 := cooldownTarget_spec sampleFCC 50 (5 * second) (70 * second) (by decide)
  have h4 := cooldownTarget_spec { sampleFCC with cooldownDelay := 0 } 50 0 0 (by decide)
  exact ⟨h1.2.2.1 (by decide) (by decide), h2.2.1 rfl,
         h3.2.2.2 (by decide) (by decide), h4.1 rfl⟩

/-- Claim C4: SetOverride with duration ≤ 0 stores an override with zero
expiry which survives any number of eviction passes and fixes the decision
result at its speed; SetOverride with duration d > 0 stores
expiresAt = now + d, and an eviction pass at any time strictly past that
removes the override, leaving exactly the state an override-free controller
would have — decisions revert to the threshold logic. -/
theorem setOverride_expiry_spec (cfg : Config) (st : FanState) (sp d : Int)
    (r : String) (now : Int) :
    (d ≤ 0 →
      ∀ ts : List Int,
        (ts.foldl cleanExpired (SetOverride st sp d r now)).override
          = some { speed := sp, reason := r, expiresAt := 0, createdAt := now } ∧
        ∀ cpu gpu t,
          (calculateTarget cfg (ts.foldl cleanExpired (SetOverride st sp d r now))
              cpu gpu t).1 = sp) ∧
    (0 < d →
      (SetOverride st sp d r now).override
        = some { speed := sp, reason := r, expiresAt := now + d, createdAt := now } ∧
      (0 < now → ∀ t, now + d < t →
        (cleanExpired (SetOverride st sp d r now) t).override = none ∧
        (st.override = none →
          cleanExpired (SetOverride st sp d r now) t = cleanExpired st t))) := by
  constructor
  · intro hd ts
    have hset : (SetOverride st sp d r now).override
        = some { speed := sp, reason := r, expiresAt := 0, createdAt := now } := by
      simp [SetOverride, show ¬ d > 0 by omega]
    have hfold := foldl_cleanExpired_keeps_zero_expiry ts (SetOverride st sp d r now)
      { speed := sp, reason := r, expiresAt := 0, createdAt := now } hset rfl
    exact ⟨hfold, fun cpu gpu t => by
      rw [calculateTarget_of_override cfg _ _ cpu gpu t hfold]⟩
  · intro hd
    have hset : (SetOverride st sp d r now).override
        = some { speed := sp, reason := r, expiresAt := now + d, createdAt := now } := by
      simp [SetOverride, hd]
    refine ⟨hset, fun hnow t ht => ⟨?_, ?_⟩⟩
    · simp [cleanExpired, SetOverride, hd, show now + d ≠ 0 by omega, ht]
    · intro hov
      simp [cleanExpired, SetOverride, hd, show now + d ≠ 0 by omega, ht, hov]

/-- Witness for C4: a zero-duration override of 70% set at t = 10s survives
two eviction passes and still decides the target at t = 900s; a 5s override
set at t = 10s has expiry 15s, and an eviction pass at t = 16s removes it,
restoring the override-free state. -/
theorem setOverride_expiry_spec_witness :
    (([20 * second, 900 * second].foldl cleanExpired
        (SetOverride idleState 70 0 "maint" (10 * second))).override
      = some { speed := 70, reason := "maint", expiresAt := 0, createdAt := 10 * second }) ∧
    (calculateTarget sampleCfg
        ([20 * second, 900 * second].foldl cleanExpired
          (SetOverride idleState 70 0 "maint" (10 * second)))
        fallbackCPU fallbackGPU (900 * second)).1 = 70 ∧
    (SetOverride idleState 70 (5 * second) "maint" (10 * second)).override
      = some { speed := 70, reason := "maint", expiresAt := 15 * second,
               createdAt := 10 * second } ∧
    (cleanExpired (SetOverride idleState 70 (5 * second) "maint" (10 * second))
        (16 * second)).override = none ∧
    cleanExpired (SetOverride idleState 70 (5 * second) "maint" (10 * second))
        (16 * second)
      = cleanExpired idleState (16 * second) := by
  have h0 := setOverride_expiry_spec sampleCfg idleState 70 0 "maint" (10 * second)
  have h5 := setOverride_expiry_spec sampleCfg idleState 70 (5 * second) "maint" (10 * second)
  have ha := h0.1 (by decide) [20 * second, 900 * second]
  have hb := h5.2 (by decide)
  have hc := hb.2 (by decide) (16 * second) (by decide)
  exact ⟨ha.1, ha.2 fallbackCPU fallbackGPU (900 * second),
         by rw [hb.1]; decide, hc.1, hc.2 rfl⟩

/-- Claim C6: calculateTrend returns 0 when fewer than 2 samples lie within
the last 60 seconds, or when the span between the first and last qualifying
sample is under 6 seconds (0.1 minutes); otherwise it returns the value
difference divided by the elapsed minutes.  In particular a two-sample
history (40°C at t0, 46°C at t0+30s) inside the window yields 12 °C/minute
and a single-sample history yields 0. -/
theorem calculateTrend_spec (history : List tempPoint) (now : Int) :
    ((recentSamples history now).length < 2 → calculateTrend history now = 0) ∧
    (∀ a l : tempPoint, 2 ≤ (recentSamples history now).length →
      (recentSamples history now).head? = some a →
      (recentSamples history now).getLast? = some l →
      (l.timestamp - a.timestamp < 6 * second → calculateTrend history now = 0) ∧
      (6 * second ≤ l.timestamp - a.timestamp →
        calculateTrend history now
          = ((l.temp - a.temp : Int) : ℚ)
            / (((l.timestamp - a.timestamp : Int) : ℚ) / (60 * 1000000000)))) ∧
    (∀ t0 : Int, now - 60 * second < t0 →
      calculateTrend [{ temp := 40, timestamp := t0 },
                      { temp := 46, timestamp := t0 + 30 * second }] now = 12) ∧
    (∀ p : tempPoint, calculateTrend [p] now = 0) := by
  have hs : second = 1000000000 := rfl
  refine ⟨?_, ?_, ?_, ?_⟩
  · intro h
    by_cases hh : history.length < 2
    · simp [calculateTrend, hh]
    · simp [calculateTrend, hh, h]
  · intro a l hlen hhead hlast
    have hfl := List.length_filter_le
      (fun p : tempPoint => decide (p.timestamp > now - 60 * second)) history
    have hh : ¬ history.length < 2 := by
      have : (recentSamples history now).length ≤ history.length := hfl
      omega
    have hrec : ¬ (recentSamples history now).length < 2 := by omega
    have hhd : (recentSamples history now).headD { temp := 0, timestamp := 0 } = a := by
      rw [List.headD_eq_head?, hhead]; rfl
    have hld : (recentSamples history now).getLastD { temp := 0, timestamp := 0 } = l := by
      rw [List.getLastD_eq_getLast? _ (recentSamples history now), hlast]; rfl
    constructor
    · intro hspan
      have hd : ((l.timestamp - a.timestamp : Int) : ℚ) / (60 * 1000000000) < 1/10 := by
        rw [div_lt_iff₀ (by norm_num)]
        have hq : ((l.timestamp - a.timestamp : Int) : ℚ) < ((6 * second : Int) : ℚ) := by
          exact_mod_cast hspan
        rw [hs] at hq
        push_cast at hq
        norm_num
        linarith
      simp only [calculateTrend]
      rw [if_neg hh, if_neg hrec, hhd, hld, if_pos hd]
    · intro hspan
      have hd : ¬ ((l.timestamp - a.timestamp : Int) : ℚ) / (60 * 1000000000) < 1/10 := by
        rw [not_lt, le_div_iff₀ (by norm_num)]
        have hq : ((6 * second : Int) : ℚ) ≤ ((l.timestamp - a.timestamp : Int) : ℚ) := by
          exact_mod_cast hspan
        rw [hs] at hq
        push_cast at hq
        norm_num
        linarith
      simp only [calculateTrend]
      rw [if_neg hh, if_neg hrec, hhd, hld, if_neg hd]
  · intro t0 ht
    have h2 : now - 60 * second < t0 + 30 * second := by omega
    have hr : recentSamples [{ temp := 40, timestamp := t0 },
        { temp := 46, timestamp := t0 + 30 * second }] now
        = [{ temp := 40, timestamp := t0 },
           { temp := 46, timestamp := t0 + 30 * second }] := by
      simp [recentSamples, ht, h2]
    simp only [calculateTrend, hr]
    norm_num
    rw [hs]
    norm_num
  · intro p
    simp [calculateTrend]

/-- Witness for C6: the two-sample history (40°C at 100s, 46°C at 130s)
evaluated at now = 130s yields 12 °C/minute, and a single-sample history
yields 0. -/
theorem calculateTrend_spec_witness :
    calculateTrend [{ temp := 40, timestamp := 100 * second },
                    { temp := 46, timestamp := 130 * second }] (130 * second) = 12 ∧
    calculateTrend [{ temp := 40, timestamp := 100 * second }] (130 * second) = 0 := by
  have h := calculateTrend_spec [{ temp := 40, timestamp := 100 * second },
    { temp := 46, timestamp := 130 * second }] (130 * second)
  exact ⟨h.2.2.1 (100 * second) (by decide),
         (calculateTrend_spec [{ temp := 40, timestamp := 100 * second }]
            (130 * second)).2.2.2 { temp := 40, timestamp := 100 * second }⟩

/-- Counterexample to C7 as stated: when a hint from the same source is
already registered, AddHint followed by RemoveHint does not restore the
registry (the pre-existing hint is lost), and the subsequent decision
differs from the one the untouched state produces (20 instead of 45). -/
theorem addHint_removeHint_not_restoring :
    (RemoveHint (AddHint hintedState newHint 5) "x").hints ≠ hintedState.hints ∧
    (calculateTarget sampleCfg hintedState fallbackCPU fallbackGPU 10).1 = 45 ∧
    (calculateTarget sampleCfg (RemoveHint (AddHint hintedState newHint 5) "x")
        fallbackCPU fallbackGPU 10).1 = 20 := by
  decide

/-- Claim C7 (amended): provided no hint from that source was already
registered, AddHint followed immediately by RemoveHint for the same source
restores the registry (indeed the whole state) exactly, so a subsequent
decision call yields the same result as one computed on the untouched
state; RemoveHint is idempotent and total (no error on an absent source). -/
theorem addHint_removeHint_roundtrip (cfg : Config) (st : FanState)
    (hint : WorkloadHint) (now : Int)
    (habsent : ∀ p ∈ st.hints, p.1 ≠ hint.source) :
    RemoveHint (AddHint st hint now) hint.source = st ∧
    (∀ cpu gpu t,
      calculateTarget cfg (RemoveHint (AddHint st hint now) hint.source) cpu gpu t
        = calculateTarget cfg st cpu gpu t) ∧
    (∀ s, RemoveHint (RemoveHint st s) s = RemoveHint st s) := by
  have hfilter : st.hints.filter (fun p => p.1 != hint.source) = st.hints :=
    List.filter_eq_self.mpr (fun p hp => by
      simpa using habsent p hp)
  have hmain : RemoveHint (AddHint st hint now) hint.source = st := by
    show ({ st with hints := _ } : FanState) = st
    simp only [RemoveHint, AddHint, hintsInsert]
    rw [List.filter_cons]
    simp [hfilter]
  refine ⟨hmain, fun cpu gpu t => by rw [hmain], fun s => ?_⟩
  show ({ st with hints := _ } : FanState) = { st with hints := _ }
  simp only [RemoveHint]
  rw [List.filter_eq_self.mpr (fun p hp => (List.mem_filter.mp hp).2)]

/-- Witness for C7: adding freshHint (source y, absent from idleState) and
removing it restores idleState exactly, the decision is unchanged, and
RemoveHint is idempotent on an absent source. -/
theorem addHint_removeHint_roundtrip_witness :
    RemoveHint (AddHint idleState freshHint 3) freshHint.source = idleState ∧
    calculateTarget sampleCfg (RemoveHint (AddHint idleState freshHint 3) freshHint.source)
        fallbackCPU fallbackGPU 9
      = calculateTarget sampleCfg idleState fallbackCPU fallbackGPU 9 ∧
    RemoveHint (RemoveHint idleState "z") "z" = RemoveHint idleState "z" := by
  have h := addHint_removeHint_roundtrip sampleCfg idleState freshHint 3
    (by intro p hp; simp [idleState] at hp)
  exact ⟨h.1, h.2.1 fallbackCPU fallbackGPU 9, h.2.2 "z"⟩

/-- Claim C8: the minFanSpeed stored by AddHint is derived solely from the
hint's intensity at creation time (high 45, medium 25, low 15, anything else
25), regardless of the caller-supplied minFanSpeed, and no later registry or
decision operation modifies a stored hint (they only remove entries or leave
the registry untouched). -/
theorem addHint_minFanSpeed_spec (st : FanState) (hint : WorkloadHint) (now : Int) :
    (∀ m : Int,
      hintsLookup (AddHint st { hint with minFanSpeed := m } now).hints hint.source
        = some { hint with minFanSpeed := intensityMinFanSpeed hint.intensity,
                           createdAt := now }) ∧
    intensityMinFanSpeed "high" = 45 ∧
    intensityMinFanSpeed "medium" = 25 ∧
    intensityMinFanSpeed "low" = 15 ∧
    (∀ s, s ≠ "high" → s ≠ "medium" → s ≠ "low" → intensityMinFanSpeed s = 25) ∧
    (∀ src, ∀ p ∈ (RemoveHint st src).hints, p ∈ st.hints) ∧
    (∀ t, ∀ p ∈ (cleanExpired st t).hints, p ∈ st.hints) ∧
    (∀ cfg cpu gpu t, (calculateTarget cfg st cpu gpu t).2.hints = st.hints) := by
  refine ⟨?_, rfl, rfl, rfl, ?_, ?_, ?_, ?_⟩
  · intro m
    simp [AddHint, hintsInsert, hintsLookup]
  · intro s h1 h2 h3
    simp [intensityMinFanSpeed, h1, h2, h3]
  · intro src p hp
    exact (List.mem_filter.mp hp).1
  · intro t p hp
    exact (List.mem_filter.mp hp).1
  · intro cfg cpu gpu t
    exact (calculateTarget_state_frame cfg st cpu gpu t).2.2.1

/-- Witness for C8: a caller-supplied minFanSpeed of 3 on a high-intensity
hint is stored as 45, and an unrecognized intensity maps to 25. -/
theorem addHint_minFanSpeed_spec_witness :
    hintsLookup (AddHint idleState { preHint with minFanSpeed := 3 } 4).hints "x"
      = some { preHint with minFanSpeed := 45, createdAt := 4 } ∧
    intensityMinFanSpeed "turbo" = 25 := by
  have h := addHint_minFanSpeed_spec idleState preHint 4
  refine ⟨?_, h.2.2.2.2.1 "turbo" (by decide) (by decide) (by decide)⟩
  have h1 := h.1 3
  simpa using h1

/-- Claim C9: a failed CPU read makes the cycle behave exactly as if the
fallback reading (no temps, max 0) had been read: that fallback is what the
cycle uses, what gets appended to history (its point survives trimming
whenever the retention window is positive), what the decision function sees,
and what is forwarded to the history store; symmetrically for the GPU.  The
cycle itself always completes. -/
theorem controlLoop_read_error_fallback (cfg : Config) (st : FanState)
    (e e2 : String) (cres : Except String CPUReading)
    (gres : Except String GPUReading) (now : Int) :
    controlLoop cfg st (Except.error e) gres now
      = controlLoop cfg st (Except.ok fallbackCPU) gres now ∧
    (controlLoop cfg st (Except.error e) gres now).usedCPU = fallbackCPU ∧
    (controlLoop cfg st (Except.error e) gres now).recordedCPUMax = 0 ∧
    (0 < cfg.monitoring.historyRetention →
      ((controlLoop cfg st (Except.error e) gres now).state.cpuHistory).getLast?
        = some { temp := 0, timestamp := now }) ∧
    controlLoop cfg st cres (Except.error e2) now
      = controlLoop cfg st cres (Except.ok fallbackGPU) now ∧
    (controlLoop cfg st cres (Except.error e2) now).usedGPU = fallbackGPU ∧
    (controlLoop cfg st cres (Except.error e2) now).recordedGPUMax = 0 ∧
    (0 < cfg.monitoring.historyRetention →
      ((controlLoop cfg st cres (Except.error e2) now).state.gpuHistory).getLast?
        = some { temp := 0, timestamp := now }) := by
  have hsec : second = 1000000000 := rfl
  refine ⟨rfl, rfl, rfl, ?_, rfl, rfl, rfl, ?_⟩
  · intro hret
    have hs2 : (0 : Int) < second := by rw [hsec]; norm_num
    have hc : now - cfg.monitoring.historyRetention * second < now := by
      have := mul_pos hret hs2
      omega
    have hcpu : (controlLoop cfg st (Except.error e) gres now).state.cpuHistory
        = (st.cpuHistory ++ [({ temp := 0, timestamp := now } : tempPoint)]).filter
            (fun p => decide (p.timestamp > now - cfg.monitoring.historyRetention * second)) := by
      simp only [controlLoop]
      rw [(calculateTarget_state_frame cfg _ _ _ now).1]
      simp [cleanExpired, trimHistory, fallbackCPU]
    rw [hcpu]
    simp [List.filter_append, hc, List.getLast?_concat]
  · intro hret
    have hs2 : (0 : Int) < second := by rw [hsec]; norm_num
    have hc : now - cfg.monitoring.historyRetention * second < now := by
      have := mul_pos hret hs2
      omega
    have hgpu : (controlLoop cfg st cres (Except.error e2) now).state.gpuHistory
        = (st.gpuHistory ++ [({ temp := 0, timestamp := now } : tempPoint)]).filter
            (fun p => decide (p.timestamp > now - cfg.monitoring.historyRetention * second)) := by
      simp only [controlLoop]
      rw [(calculateTarget_state_frame cfg _ _ _ now).2.1]
      simp [cleanExpired, trimHistory, fallbackGPU]
    rw [hgpu]
    simp [List.filter_append, hc, List.getLast?_concat]

/-- Witness for C9: a failed CPU read at t = 5s on the sample configuration
(retention 3600s) uses the fallback, records cpuMax 0, and leaves the
fallback point as the newest history entry. -/
theorem controlLoop_read_error_fallback_witness :
    (controlLoop sampleCfg idleState (Except.error "read failed")
        (Except.ok fallbackGPU) (5 * second)).usedCPU = fallbackCPU ∧
    (controlLoop sampleCfg idleState (Except.error "read failed")
        (Except.ok fallbackGPU) (5 * second)).recordedCPUMax = 0 ∧
    ((controlLoop sampleCfg idleState (Except.error "read failed")
        (Except.ok fallbackGPU) (5 * second)).state.cpuHistory).getLast?
      = some { temp := 0, timestamp := 5 * second } := by
  have h := controlLoop_read_error_fallback sampleCfg idleState "read failed" "x"
    (Except.ok fallbackCPU) (Except.ok fallbackGPU) (5 * second)
  exact ⟨h.2.1, h.2.2.1, h.2.2.2.1 (by decide)⟩

/-- Counterexample to C10 as stated: with IdleSpeed configured 0, GetStatus
reports 0 while the decision logic uses the effective idle speed 20 (the
decision on an idle, never-breached state indeed returns 20). -/
theorem getStatus_idleSpeed_not_effective :
    (GetStatus zeroIdleCfg idleState 5).idleSpeed = 0 ∧
    effIdleSpeed zeroIdleCfg.fanControl = 20 ∧
    (GetStatus zeroIdleCfg idleState 5).idleSpeed ≠ effIdleSpeed zeroIdleCfg.fanControl ∧
    (calculateTarget zeroIdleCfg { idleState with currentSpeed := 0, targetSpeed := 0 }
        fallbackCPU fallbackGPU 5).1 = 20 := by
  decide

/-- Claim C10 (amended): GetStatus reports the effective thresholds actually
used by the decision logic (65 when CPUThreshold is configured 0, 60 when
GPUThreshold is configured 0), but it reports the raw configured IdleSpeed
without default substitution — when IdleSpeed is 0 it reports 0, not the
effective 20 the decision logic uses. -/
theorem getStatus_effective_values (cfg : Config) (st : FanState) (now : Int) :
    (cfg.fanControl.cpuThreshold = 0 → (GetStatus cfg st now).cpuThreshold = 65) ∧
    (cfg.fanControl.gpuThreshold = 0 → (GetStatus cfg st now).gpuThreshold = 60) ∧
    (GetStatus cfg st now).cpuThreshold = effCPUThreshold cfg.fanControl ∧
    (GetStatus cfg st now).gpuThreshold = effGPUThreshold cfg.fanControl ∧
    (GetStatus cfg st now).idleSpeed = cfg.fanControl.idleSpeed := by
  refine ⟨?_, ?_, rfl, rfl, rfl⟩
  · intro h; simp [GetStatus, h]
  · intro h; simp [GetStatus, h]

/-- Witness for C10 (amended) on a configuration with both thresholds 0 and
on zeroIdleCfg. -/
theorem getStatus_effective_values_witness :
    (GetStatus zeroThresholdCfg idleState 5).cpuThreshold = 65 ∧
    (GetStatus zeroThresholdCfg idleState 5).gpuThreshold = 60 ∧
    (GetStatus zeroIdleCfg idleState 5).idleSpeed = zeroIdleCfg.fanControl.idleSpeed := by
  have h1 := getStatus_effective_values zeroThresholdCfg idleState 5
  have h2 := getStatus_effective_values zeroIdleCfg idleState 5
  exact ⟨h1.1 rfl, h1.2.1 rfl, h2.2.2.2.2⟩

end FanCtrl
